import Mathlib

/-!
Verification of the IoTSensorMonitoring repository.

The repository has two Python source files:
* `src/TaskA/SensorMonitor.py` — the threaded monitor (`SensorMonitor` class):
  config loading/validation, `_bucket` and `_classify`, the sampling `run`
  loop, the display loop, the joystick pause toggle, and `main`.
* `src/SensorMonitor.py` — a non-threaded legacy variant with the scalar
  classifiers `classify_temperature`, `classify_humidity`,
  `classify_pressure`, and `classify_orientation`.

Reals are embedded as `ℚ`; Python exceptions as `Except` values; the JSON
configuration as an inductive `Json` type with Python-faithful membership,
subscript and comparison semantics (a comparison between values of
incompatible types is a `TypeError`, distinct from the monitor's own
`ConfigError`).
-/

namespace IoTSensor

/-- The three comfort labels returned by `SensorMonitor._bucket`. -/
inductive Label where
  | Low
  | Comfortable
  | High
deriving DecidableEq, Repr

/-- The two orientation labels. -/
inductive Orient where
  | Aligned
  | Tilted
deriving DecidableEq, Repr

/-- `SensorMonitor._bucket(v, lo, hi)` from `src/TaskA/SensorMonitor.py`:
`v < lo → Low`, `v > hi → High`, otherwise `Comfortable`. -/
def bucket (v lo hi : ℚ) : Label :=
  if v < lo then .Low
  else if v > hi then .High
  else .Comfortable

/-- `classify_temperature` from `src/SensorMonitor.py`, parametrised by the
module globals `min_temp`, `max_temp` read from the config file. -/
def classify_temperature (min_temp max_temp temp : ℚ) : Label :=
  if temp < min_temp then .Low
  else if min_temp ≤ temp ∧ temp ≤ max_temp then .Comfortable
  else .High

/-- `classify_humidity` from `src/SensorMonitor.py`. -/
def classify_humidity (min_humidity max_humidity humidity : ℚ) : Label :=
  if humidity < min_humidity then .Low
  else if min_humidity ≤ humidity ∧ humidity ≤ max_humidity then .Comfortable
  else .High

/-- `classify_pressure` from `src/SensorMonitor.py`. -/
def classify_pressure (min_pressure max_pressure pressure : ℚ) : Label :=
  if pressure < min_pressure then .Low
  else if min_pressure ≤ pressure ∧ pressure ≤ max_pressure then .Comfortable
  else .High

/-- `classify_orientation(pitch, roll, yaw)` from `src/SensorMonitor.py`,
parametrised by the per-axis scalar limits `orientation_ranges[axis]`:
tilted when any axis exceeds its limit in absolute value. -/
def classify_orientation (pitch roll yaw pr rr yr : ℚ) : Orient :=
  if |pitch| > pr ∨ |roll| > rr ∨ |yaw| > yr then .Tilted else .Aligned

/-- A `(min, max)` range from a validated config section. -/
structure RangeC where
  min : ℚ
  max : ℚ
deriving DecidableEq, Repr

/-- The three per-axis orientation ranges of a validated config. -/
structure OrientCfg where
  pitch : RangeC
  roll : RangeC
  yaw : RangeC
deriving DecidableEq, Repr

/-- The validated thresholds consumed by `SensorMonitor._classify`. -/
structure Cfg where
  temperature : RangeC
  humidity : RangeC
  pressure : RangeC
  orientation : OrientCfg
deriving DecidableEq, Repr

/-- One sampled reading, as built by `SensorMonitor._read_sensors`. -/
structure Reading where
  temperature : ℚ
  humidity : ℚ
  pressure : ℚ
  pitch : ℚ
  roll : ℚ
  yaw : ℚ
deriving DecidableEq, Repr

/-- The four labels produced by `SensorMonitor._classify`. -/
structure Classification where
  temperature : Label
  humidity : Label
  pressure : Label
  orientation : Orient
deriving DecidableEq, Repr

/-- `SensorMonitor._classify(r)`: bucket each scalar against its configured
range; orientation is `Aligned` iff all three axes are inside their
inclusive `[min, max]` intervals. -/
def classify (cfg : Cfg) (r : Reading) : Classification :=
  { temperature := bucket r.temperature cfg.temperature.min cfg.temperature.max
    humidity := bucket r.humidity cfg.humidity.min cfg.humidity.max
    pressure := bucket r.pressure cfg.pressure.min cfg.pressure.max
    orientation :=
      if cfg.orientation.pitch.min ≤ r.pitch ∧ r.pitch ≤ cfg.orientation.pitch.max ∧
         cfg.orientation.roll.min ≤ r.roll ∧ r.roll ≤ cfg.orientation.roll.max ∧
         cfg.orientation.yaw.min ≤ r.yaw ∧ r.yaw ≤ cfg.orientation.yaw.max
      then .Aligned else .Tilted }

/-- Round-half-to-even to an integer, the tie-breaking rule of Python 3
`round`. -/
def roundHalfEven (x : ℚ) : ℤ :=
  if x - ⌊x⌋ = 1 / 2 then (if 2 ∣ ⌊x⌋ then ⌊x⌋ else ⌊x⌋ + 1) else round x

/-- Python `round(x, 1)`: round to one decimal place, ties to even. -/
def pyRound1 (x : ℚ) : ℚ := (roundHalfEven (x * 10) : ℚ) / 10

/-- The raw values delivered by the Sense HAT collaborator on one tick. -/
structure Raw where
  temperature : ℚ
  humidity : ℚ
  pressure : ℚ
  pitch : ℚ
  roll : ℚ
  yaw : ℚ
deriving DecidableEq, Repr

/-- `SensorMonitor._read_sensors`: the calibration offset is added to the
raw temperature and every field is rounded to one decimal. -/
def read_sensors (raw : Raw) (temp_offset : ℚ) : Reading :=
  { temperature := pyRound1 (raw.temperature + temp_offset)
    humidity := pyRound1 raw.humidity
    pressure := pyRound1 raw.pressure
    pitch := pyRound1 raw.pitch
    roll := pyRound1 raw.roll
    yaw := pyRound1 raw.yaw }

/-- A parsed JSON value, as produced by Python `json.load`: numbers,
strings, and objects (the shapes the configuration claims exercise). -/
inductive Json where
  | num (q : ℚ)
  | str (s : String)
  | obj (kvs : List (String × Json))

/-- Python exceptions that can escape `_load_and_validate_config`:
the monitor's own `ConfigError`, a `TypeError` (e.g. from comparing or
subscripting values of the wrong type), or a `KeyError`. -/
inductive PyErr where
  | configError (msg : String)
  | typeError
  | keyError (k : String)
deriving DecidableEq, Repr

/-- Python `k in v`: key membership for a dict, substring test for a
string, `TypeError` for a number (not iterable). -/
def pyIn (k : String) (v : Json) : Except PyErr Bool :=
  match v with
  | .obj kvs => .ok ((kvs.map Prod.fst).contains k)
  | .str s => .ok (decide (List.IsInfix k.data s.data))
  | .num _ => .error .typeError

/-- Python `v[k]` for a string key: dict lookup (`KeyError` when absent),
`TypeError` when `v` is a string or a number. -/
def pyGet (v : Json) (k : String) : Except PyErr Json :=
  match v with
  | .obj kvs =>
    match kvs.lookup k with
    | some x => .ok x
    | none => .error (.keyError k)
  | .str _ => .error .typeError
  | .num _ => .error .typeError

/-- Python string `<`: lexicographic comparison by code point, a proper
prefix being smaller. -/
def charListLt : List Char → List Char → Bool
  | [], [] => false
  | [], _ :: _ => true
  | _ :: _, [] => false
  | a :: as, b :: bs =>
    if a.val < b.val then true
    else if b.val < a.val then false
    else charListLt as bs

/-- Python `a >= b`: numeric comparison for two numbers, lexicographic
comparison for two strings, `TypeError` for any other combination. -/
def pyGE (a b : Json) : Except PyErr Bool :=
  match a, b with
  | .num x, .num y => .ok (decide (y ≤ x))
  | .str s, .str t => .ok (!charListLt s.data t.data)
  | _, _ => .error .typeError

/-- The section-presence loop of `_load_and_validate_config`:
`if key not in cfg: raise ConfigError(...)` for one key. -/
def check_section (cfg : Json) (k : String) : Except PyErr Unit :=
  match pyIn k cfg with
  | .error e => .error e
  | .ok false => .error (.configError ("Missing " ++ k ++ " section in config."))
  | .ok true => .ok ()

/-- `check_env_range(name)` from `_load_and_validate_config`: the section
must be present, hold both `min` and `max`, both numeric, with
`min < max`; any violation is a `ConfigError`. Subscripting a non-dict
section or testing membership in a number raises a `TypeError` instead,
exactly as in Python. -/
def check_env_range (cfg : Json) (name : String) : Except PyErr Unit :=
  match pyIn name cfg with
  | .error e => .error e
  | .ok false => .error (.configError (name ++ " must have min and max."))
  | .ok true =>
    match pyGet cfg name with
    | .error e => .error e
    | .ok g =>
      match pyIn "min" g with
      | .error e => .error e
      | .ok false => .error (.configError (name ++ " must have min and max."))
      | .ok true =>
        match pyIn "max" g with
        | .error e => .error e
        | .ok false => .error (.configError (name ++ " must have min and max."))
        | .ok true =>
          match pyGet g "min" with
          | .error e => .error e
          | .ok lo =>
            match pyGet g "max" with
            | .error e => .error e
            | .ok hi =>
              match lo, hi with
              | .num l, .num h =>
                if h ≤ l then .error (.configError ("Invalid range for " ++ name ++ ": min less than max required."))
                else .ok ()
              | _, _ => .error (.configError ("Invalid range for " ++ name ++ ": min less than max required."))

/-- The orientation pre-check of `_load_and_validate_config`:
`"orientation" in cfg` and all of pitch/roll/yaw present in it. -/
def check_orient_axes (cfg : Json) : Except PyErr Unit :=
  match pyIn "orientation" cfg with
  | .error e => .error e
  | .ok false => .error (.configError "Orientation must include pitch/roll/yaw with min/max.")
  | .ok true =>
    match pyGet cfg "orientation" with
    | .error e => .error e
    | .ok o =>
      match pyIn "pitch" o with
      | .error e => .error e
      | .ok false => .error (.configError "Orientation must include pitch/roll/yaw with min/max.")
      | .ok true =>
        match pyIn "roll" o with
        | .error e => .error e
        | .ok false => .error (.configError "Orientation must include pitch/roll/yaw with min/max.")
        | .ok true =>
          match pyIn "yaw" o with
          | .error e => .error e
          | .ok false => .error (.configError "Orientation must include pitch/roll/yaw with min/max.")
          | .ok true => .ok ()

/-- The per-axis orientation check of `_load_and_validate_config`:
`min`/`max` must be present in the axis dict and `ax["min"] >= ax["max"]`
must be false under Python comparison. The bounds are NOT checked for
numeric type: any pair comparing `min < max` passes, and an incomparable
pair raises `TypeError`. -/
def check_axis (cfg : Json) (axis : String) : Except PyErr Unit :=
  match pyGet cfg "orientation" with
  | .error e => .error e
  | .ok o =>
    match pyGet o axis with
    | .error e => .error e
    | .ok ax =>
      match pyIn "min" ax with
      | .error e => .error e
      | .ok false => .error (.configError ("Invalid orientation range for " ++ axis ++ "."))
      | .ok true =>
        match pyIn "max" ax with
        | .error e => .error e
        | .ok false => .error (.configError ("Invalid orientation range for " ++ axis ++ "."))
        | .ok true =>
          match pyGet ax "min" with
          | .error e => .error e
          | .ok m =>
            match pyGet ax "max" with
            | .error e => .error e
            | .ok mx =>
              match pyGE m mx with
              | .error e => .error e
              | .ok true => .error (.configError ("Invalid orientation range for " ++ axis ++ "."))
              | .ok false => .ok ()

/-- Sequencing of two validation steps: the first error wins. -/
def andThen (a b : Except PyErr Unit) : Except PyErr Unit :=
  match a with
  | .error e => .error e
  | .ok _ => b

/-- `SensorMonitor._load_and_validate_config` after a successful
`json.load`, in the exact order of the source: the four section-presence
checks, `check_env_range` on temperature/humidity/pressure, the
orientation axes presence check, then the per-axis min/max checks. -/
def validate (cfg : Json) : Except PyErr Unit :=
  andThen (check_section cfg "temperature") <|
  andThen (check_section cfg "humidity") <|
  andThen (check_section cfg "pressure") <|
  andThen (check_section cfg "orientation") <|
  andThen (check_env_range cfg "temperature") <|
  andThen (check_env_range cfg "humidity") <|
  andThen (check_env_range cfg "pressure") <|
  andThen (check_orient_axes cfg) <|
  andThen (check_axis cfg "pitch") <|
  andThen (check_axis cfg "roll") (check_axis cfg "yaw")

/-- Success condition for one environmental range, stated as an unordered
conjunction: present, both bounds present, both numeric, `min < max`. -/
def envOkP (cfg : Json) (name : String) : Prop :=
  pyIn name cfg = .ok true ∧
  ∃ g lo hi l h,
    pyGet cfg name = .ok g ∧
    pyIn "min" g = .ok true ∧ pyIn "max" g = .ok true ∧
    pyGet g "min" = .ok lo ∧ pyGet g "max" = .ok hi ∧
    lo = .num l ∧ hi = .num h ∧ l < h

/-- Success condition for the orientation axes presence check. -/
def orientAxesP (cfg : Json) : Prop :=
  pyIn "orientation" cfg = .ok true ∧
  ∃ o, pyGet cfg "orientation" = .ok o ∧
    pyIn "pitch" o = .ok true ∧ pyIn "roll" o = .ok true ∧ pyIn "yaw" o = .ok true

/-- Success condition for one orientation axis: bounds present and
`min >= max` evaluating to false under Python comparison (no numeric
type requirement). -/
def axisOkP (cfg : Json) (axis : String) : Prop :=
  ∃ o ax m mx,
    pyGet cfg "orientation" = .ok o ∧
    pyGet o axis = .ok ax ∧
    pyIn "min" ax = .ok true ∧ pyIn "max" ax = .ok true ∧
    pyGet ax "min" = .ok m ∧ pyGet ax "max" = .ok mx ∧
    pyGE m mx = .ok false

/-- The full success condition of `_load_and_validate_config`. -/
def validOk (cfg : Json) : Prop :=
  pyIn "temperature" cfg = .ok true ∧
  pyIn "humidity" cfg = .ok true ∧
  pyIn "pressure" cfg = .ok true ∧
  pyIn "orientation" cfg = .ok true ∧
  envOkP cfg "temperature" ∧
  envOkP cfg "humidity" ∧
  envOkP cfg "pressure" ∧
  orientAxesP cfg ∧
  axisOkP cfg "pitch" ∧
  axisOkP cfg "roll" ∧
  axisOkP cfg "yaw"

/-- A numeric `(min, max)` JSON range object. -/
def jrange (lo hi : ℚ) : Json := .obj [("min", .num lo), ("max", .num hi)]

/-- An orientation JSON object from three axis values. -/
def jorient (p r y : Json) : Json := .obj [("pitch", p), ("roll", r), ("yaw", y)]

/-- A full config JSON object from its four sections. -/
def jcfg (t h p o : Json) : Json :=
  .obj [("temperature", t), ("humidity", h), ("pressure", p), ("orientation", o)]

/-- The valid configuration of the spec scenario. -/
def cfg_good : Json :=
  jcfg (jrange 18 26) (jrange 30 60) (jrange 990 1020)
    (jorient (jrange (-10) 10) (jrange (-10) 10) (jrange (-180) 180))

/-- A configuration whose pitch bounds are the strings "a" and "b":
non-numeric, yet `"a" >= "b"` is false, so validation accepts it. -/
def cfg_pitch_str : Json :=
  jcfg (jrange 18 26) (jrange 30 60) (jrange 990 1020)
    (jorient (.obj [("min", .str "a"), ("max", .str "b")]) (jrange (-10) 10) (jrange (-180) 180))

/-- A configuration whose humidity section lacks `max`. -/
def cfg_hum_missing_max : Json :=
  jcfg (jrange 18 26) (.obj [("min", .num 30)]) (jrange 990 1020)
    (jorient (jrange (-10) 10) (jrange (-10) 10) (jrange (-180) 180))

/-- A configuration whose temperature `min` is a string (non-numeric). -/
def cfg_temp_nonnum : Json :=
  jcfg (.obj [("min", .str "x"), ("max", .num 26)]) (jrange 30 60) (jrange 990 1020)
    (jorient (jrange (-10) 10) (jrange (-10) 10) (jrange (-180) 180))

/-- A configuration whose pressure range is inverted (`min >= max`). -/
def cfg_pressure_inverted : Json :=
  jcfg (jrange 18 26) (jrange 30 60) (jrange 1020 990)
    (jorient (jrange (-10) 10) (jrange (-10) 10) (jrange (-180) 180))

/-- A configuration whose pitch range is inverted (`min >= max`). -/
def cfg_pitch_inverted : Json :=
  jcfg (jrange 18 26) (jrange 30 60) (jrange 990 1020)
    (jorient (jrange 10 (-10)) (jrange (-10) 10) (jrange (-180) 180))

/-- A configuration whose roll bounds mix a string with a number, which
Python cannot compare: validation dies with `TypeError`, not
`ConfigError`. -/
def cfg_roll_mixed : Json :=
  jcfg (jrange 18 26) (jrange 30 60) (jrange 990 1020)
    (jorient (jrange (-10) 10) (.obj [("min", .str "a"), ("max", .num 10)]) (jrange (-180) 180))

/-- The thresholds of the spec scenario, as a validated `Cfg` value. -/
def cfg_scenario : Cfg :=
  { temperature := ⟨18, 26⟩
    humidity := ⟨30, 60⟩
    pressure := ⟨990, 1020⟩
    orientation := ⟨⟨-10, 10⟩, ⟨-10, 10⟩, ⟨-180, 180⟩⟩ }

/-- The raw sensor values of the spec scenario: temperature 27.3 before
the calibration offset; the other values are inside their ranges. -/
def raw_scenario : Raw := ⟨27.3, 45, 1000, 0, 0, 0⟩

/-- A joystick event action, as dispatched by the Sense HAT stick. -/
inductive JoyAction where
  | pressed
  | released
  | held
deriving DecidableEq, BEq, Repr

/-- `SensorMonitor._on_middle_pressed`: the paused flag flips only when
`event.action == ACTION_PRESSED`. -/
def on_middle_pressed (paused : Bool) (a : JoyAction) : Bool :=
  if a = .pressed then !paused else paused

/-- The paused flag after the handler has processed a list of events. -/
def processEvents : Bool → List JoyAction → Bool
  | p, [] => p
  | p, a :: rest => processEvents (on_middle_pressed p a) rest

/-- The number of pressed events in a list of joystick events. -/
def countPressed : List JoyAction → ℕ
  | [] => 0
  | .pressed :: t => countPressed t + 1
  | .released :: t => countPressed t
  | .held :: t => countPressed t

/-- The display-loop inter-tick sleep from `_display_loop`:
`time.sleep(max(0.2, self.rotate_seconds * 0.2))`. -/
def display_sleep (rotate_seconds : ℤ) : ℚ :=
  max (0.2 : ℚ) ((rotate_seconds : ℚ) * 0.2)

/-- The inputs of one iteration of `SensorMonitor.run`: the paused flag as
read at the top of the tick, the raw sensor values the Sense HAT would
deliver, and whether the sqlite append would succeed. -/
structure TickIn where
  paused : Bool
  raw : Raw
  persistOk : Bool
deriving DecidableEq, Repr

/-- What a run of the sampling loop produced: the samples published to the
shared `_latest`/`_latest_classes` pair, the samples committed by `_log`,
and whether the loop was terminated by an uncaught exception. -/
structure LoopTrace where
  published : List (Reading × Classification)
  persisted : List (Reading × Classification)
  crashed : Bool
deriving DecidableEq, Repr

/-- The `while` body of `SensorMonitor.run`, iterated over a list of tick
inputs. A paused tick does nothing. Otherwise the sample is read,
classified and published; then `_log` runs, and — as in the source, where
no handler surrounds `self._log(r, c)` — a failing append propagates its
exception, ending the loop (the `finally:` cleanup runs) without
processing any further tick. -/
def runLoop (cfg : Cfg) (off : ℚ) : List TickIn → LoopTrace
  | [] => ⟨[], [], false⟩
  | t :: rest =>
    if t.paused then runLoop cfg off rest
    else
      let r := read_sensors t.raw off
      let c := classify cfg r
      if t.persistOk then
        let tr := runLoop cfg off rest
        ⟨(r, c) :: tr.published, (r, c) :: tr.persisted, tr.crashed⟩
      else
        ⟨[(r, c)], [], true⟩

/-- The two bare attributes `_latest` and `_latest_classes`, holding the
identifier of the publish call that last wrote each (or `none`). -/
structure Cell where
  latest : Option ℕ
  classes : Option ℕ
deriving DecidableEq, Repr

/-- One store of the sampling thread. The tuple assignment
`self._latest, self._latest_classes = r, c` compiles to two separate
attribute stores, `_latest` first. -/
inductive WStep where
  | storeLatest (v : ℕ)
  | storeClasses (v : ℕ)
deriving DecidableEq, Repr

/-- One load of the display thread: `_display_loop` reads
`self._latest_classes[key]` and then `r = self._latest` as two separate
attribute loads. -/
inductive RStep where
  | loadClasses
  | loadLatest
deriving DecidableEq, Repr

/-- A state of the two threads sharing the cell: remaining writer stores,
remaining reader loads, and the values the reader has captured. -/
structure SysState where
  cell : Cell
  ws : List WStep
  rs : List RStep
  readClasses : Option ℕ
  readLatest : Option ℕ
deriving DecidableEq, Repr

/-- Execute the writer thread's next store, if any. -/
def doW (s : SysState) : SysState :=
  match s.ws with
  | [] => s
  | .storeLatest v :: rest => { s with cell := { s.cell with latest := some v }, ws := rest }
  | .storeClasses v :: rest => { s with cell := { s.cell with classes := some v }, ws := rest }

/-- Execute the reader thread's next load, if any. -/
def doR (s : SysState) : SysState :=
  match s.rs with
  | [] => s
  | .loadClasses :: rest => { s with readClasses := s.cell.classes, rs := rest }
  | .loadLatest :: rest => { s with readLatest := s.cell.latest, rs := rest }

/-- Run an interleaving: `true` schedules the writer's next bytecode,
`false` the reader's. Under the CPython GIL each attribute store/load is
atomic, but a thread switch may occur between any two of them. -/
def runSched : List Bool → SysState → SysState
  | [], s => s
  | true :: t, s => runSched t (doW s)
  | false :: t, s => runSched t (doR s)

/-- The writer steps of a sequence of publish calls: publish `(r, c)`
stores `_latest := r` then `_latest_classes := c`. -/
def publishSteps : List (ℕ × ℕ) → List WStep
  | [] => []
  | (r, c) :: rest => .storeLatest r :: .storeClasses c :: publishSteps rest

/-- Initial state: empty cell, the writer about to perform the given
publishes, the reader about to take one snapshot (classes then latest,
as in `_display_loop`). -/
def initState (ps : List (ℕ × ℕ)) : SysState :=
  { cell := ⟨none, none⟩
    ws := publishSteps ps
    rs := [.loadClasses, .loadLatest]
    readClasses := none
    readLatest := none }

/-- A schedule interleaving the reader between the second publish's two
stores: publish 1 completes, the reader loads `_latest_classes`, the
writer stores `_latest` of publish 2, the reader loads `_latest`, the
writer finishes publish 2. -/
def mixSched : List Bool := [true, true, false, true, false, true]

/-- The module-level names bound by `src/TaskA/SensorMonitor.py`:
`import json, sqlite3, time, threading`, `from datetime import datetime`,
`from sense_hat import SenseHat, ACTION_PRESSED`, and the module's own
constants, class and function. `sys` is never imported. -/
def module_names : List String :=
  ["json", "sqlite3", "time", "threading", "datetime", "SenseHat", "ACTION_PRESSED",
   "DB_PATH", "CONFIG_PATH", "GREEN", "RED", "BLUE", "AMBER", "WHITE",
   "ConfigError", "SensorMonitor", "main"]

/-- Whether the name `sys` is bound at module level. -/
def sys_imported : Bool := module_names.contains "sys"

/-- The `main()` function: on `ConfigError` it prints the tagged message
and calls `sys.exit(2)` — but when `sys` is unbound that call raises
`NameError`, which is uncaught, so the interpreter exits with code 1.
On any other startup exception it prints `[STARTUP ERROR]` and attempts
`sys.exit(1)`; an uncaught `NameError` there also yields interpreter exit
code 1. On a `KeyboardInterrupt` during `run()` it prints, cleans up and
returns normally (exit code 0). Result: printed lines and exit code. -/
def main_result (cfg : Json) (interrupted : Bool) : List String × Nat :=
  match validate cfg with
  | .error (.configError m) =>
    (["[CONFIG ERROR] " ++ m], if sys_imported then 2 else 1)
  | .error _ =>
    (["[STARTUP ERROR]"], 1)
  | .ok _ =>
    if interrupted then (["Exiting..."], 0) else ([], 0)

/-! Helper lemmas about the validation stages. -/

theorem andThen_ok_iff (a b : Except PyErr Unit) :
    andThen a b = .ok () ↔ a = .ok () ∧ b = .ok () := by
  cases a with
  | error e => simp [andThen]
  | ok u => cases u; simp [andThen]

theorem check_section_ok_iff (cfg : Json) (k : String) :
    check_section cfg k = .ok () ↔ pyIn k cfg = .ok true := by
  unfold check_section
  cases h1 : pyIn k cfg with
  | error e => simp
  | ok b => cases b <;> simp

theorem check_env_range_ok_iff (cfg : Json) (name : String) :
    check_env_range cfg name = .ok () ↔ envOkP cfg name := by
  unfold check_env_range envOkP
  cases h1 : pyIn name cfg with
  | error e => simp
  | ok b =>
    cases b with
    | false => simp
    | true =>
      cases h2 : pyGet cfg name with
      | error e => simp
      | ok g =>
        cases h3 : pyIn "min" g with
        | error e => simp_all
        | ok b3 =>
          cases b3 with
          | false => simp_all
          | true =>
            cases h4 : pyIn "max" g with
            | error e => simp_all
            | ok b4 =>
              cases b4 with
              | false => simp_all
              | true =>
                cases h5 : pyGet g "min" with
                | error e => simp_all
                | ok lo =>
                  cases h6 : pyGet g "max" with
                  | error e => simp_all
                  | ok hi =>
                    cases lo with
                    | num l =>
                      cases hi with
                      | num hq =>
                        by_cases hle : hq ≤ l
                        · simp_all [not_lt.mpr hle]
                        · simp_all [not_le.mp hle]
                      | str s => simp_all
                      | obj kvs => simp_all
                    | str s => cases hi <;> simp_all
                    | obj kvs => cases hi <;> simp_all

theorem check_orient_axes_ok_iff (cfg : Json) :
    check_orient_axes cfg = .ok () ↔ orientAxesP cfg := by
  unfold check_orient_axes orientAxesP
  cases h1 : pyIn "orientation" cfg with
  | error e => simp
  | ok b =>
    cases b with
    | false => simp
    | true =>
      cases h2 : pyGet cfg "orientation" with
      | error e => simp
      | ok o =>
        cases h3 : pyIn "pitch" o with
        | error e => simp_all
        | ok b3 =>
          cases b3 with
          | false => simp_all
          | true =>
            cases h4 : pyIn "roll" o with
            | error e => simp_all
            | ok b4 =>
              cases b4 with
              | false => simp_all
              | true =>
                cases h5 : pyIn "yaw" o with
                | error e => simp_all
                | ok b5 => cases b5 <;> simp_all

theorem check_axis_ok_iff (cfg : Json) (axis : String) :
    check_axis cfg axis = .ok () ↔ axisOkP cfg axis := by
  unfold check_axis axisOkP
  cases h1 : pyGet cfg "orientation" with
  | error e => simp
  | ok o =>
    cases h2 : pyGet o axis with
    | error e => simp_all
    | ok ax =>
      cases h3 : pyIn "min" ax with
      | error e => simp_all
      | ok b3 =>
        cases b3 with
        | false => simp_all
        | true =>
          cases h4 : pyIn "max" ax with
          | error e => simp_all
          | ok b4 =>
            cases b4 with
            | false => simp_all
            | true =>
              cases h5 : pyGet ax "min" with
              | error e => simp_all
              | ok m =>
                cases h6 : pyGet ax "max" with
                | error e => simp_all
                | ok mx =>
                  cases h7 : pyGE m mx with
                  | error e => simp_all
                  | ok b7 => cases b7 <;> simp_all

theorem validate_ok_iff (cfg : Json) : validate cfg = .ok () ↔ validOk cfg := by
  unfold validate validOk
  simp only [andThen_ok_iff, check_section_ok_iff, check_env_range_ok_iff,
    check_orient_axes_ok_iff, check_axis_ok_iff]

/-! Claim theorems. -/

/-- C1: for every value `v` and thresholds `lo ≤ hi`, `_bucket` returns
`Low` iff `v < lo`, `High` iff `v > hi`, and `Comfortable` otherwise; in
particular the boundary values `v = lo` and `v = hi` are `Comfortable`
(inclusive range). -/
theorem bucket_characterization (v lo hi : ℚ) (h : lo ≤ hi) :
    (bucket v lo hi = .Low ↔ v < lo) ∧
    (bucket v lo hi = .High ↔ v > hi) ∧
    (bucket v lo hi = .Comfortable ↔ lo ≤ v ∧ v ≤ hi) ∧
    bucket lo lo hi = .Comfortable ∧ bucket hi lo hi = .Comfortable := by
  unfold bucket
  refine ⟨?_, ?_, ?_, ?_, ?_⟩
  · split_ifs with h1 h2
    · exact iff_of_true rfl h1
    · exact iff_of_false (by simp) h1
    · exact iff_of_false (by simp) h1
  · split_ifs with h1 h2
    · exact iff_of_false (by simp) (not_lt.mpr (le_trans (le_of_lt h1) h))
    · exact iff_of_true rfl h2
    · exact iff_of_false (by simp) h2
  · split_ifs with h1 h2
    · exact iff_of_false (by simp) (fun hc => absurd h1 (not_lt.mpr hc.1))
    · exact iff_of_false (by simp) (fun hc => absurd h2 (not_lt.mpr hc.2))
    · exact iff_of_true rfl ⟨not_lt.mp h1, not_lt.mp h2⟩
  · rw [if_neg (lt_irrefl lo), if_neg (not_lt.mpr h)]
  · rw [if_neg (not_lt.mpr h), if_neg (lt_irrefl hi)]

/-- C1 witness: the characterization at `v = 3`, `lo = 1`, `hi = 5`. -/
theorem bucket_characterization_witness :
    (bucket 3 1 5 = .Low ↔ (3 : ℚ) < 1) ∧
    (bucket 3 1 5 = .High ↔ (3 : ℚ) > 5) ∧
    (bucket 3 1 5 = .Comfortable ↔ (1 : ℚ) ≤ 3 ∧ (3 : ℚ) ≤ 5) ∧
    bucket 1 1 5 = .Comfortable ∧ bucket 5 1 5 = .Comfortable :=
  bucket_characterization 3 1 5 (by norm_num)

/-- C2: `_classify` reports `Aligned` iff all three axes lie within their
inclusive `[min, max]` intervals and `Tilted` iff some axis is outside;
the legacy `classify_orientation` does the same for the symmetric
inclusive ranges `[-limit, limit]` its scalar per-axis limits express. -/
theorem orientation_characterization :
    (∀ (cfg : Cfg) (r : Reading),
      ((classify cfg r).orientation = .Aligned ↔
        (cfg.orientation.pitch.min ≤ r.pitch ∧ r.pitch ≤ cfg.orientation.pitch.max ∧
         cfg.orientation.roll.min ≤ r.roll ∧ r.roll ≤ cfg.orientation.roll.max ∧
         cfg.orientation.yaw.min ≤ r.yaw ∧ r.yaw ≤ cfg.orientation.yaw.max)) ∧
      ((classify cfg r).orientation = .Tilted ↔
        ¬ (cfg.orientation.pitch.min ≤ r.pitch ∧ r.pitch ≤ cfg.orientation.pitch.max ∧
           cfg.orientation.roll.min ≤ r.roll ∧ r.roll ≤ cfg.orientation.roll.max ∧
           cfg.orientation.yaw.min ≤ r.yaw ∧ r.yaw ≤ cfg.orientation.yaw.max))) ∧
    (∀ (pitch roll yaw pr rr yr : ℚ),
      classify_orientation pitch roll yaw pr rr yr = .Aligned ↔
        (-pr ≤ pitch ∧ pitch ≤ pr ∧ -rr ≤ roll ∧ roll ≤ rr ∧ -yr ≤ yaw ∧ yaw ≤ yr)) := by
  constructor
  · intro cfg r
    unfold classify
    constructor
    · split_ifs with hcond
      · exact iff_of_true rfl hcond
      · exact iff_of_false (by simp) hcond
    · split_ifs with hcond
      · exact iff_of_false (by simp) (not_not_intro hcond)
      · exact iff_of_true rfl hcond
  · intro pitch roll yaw pr rr yr
    unfold classify_orientation
    split_ifs with hcond
    · refine iff_of_false (by simp) ?_
      intro hall
      obtain ⟨a1, a2, a3, a4, a5, a6⟩ := hall
      rcases hcond with hc | hc | hc
      · exact absurd (abs_le.mpr ⟨a1, a2⟩) (not_le.mpr hc)
      · exact absurd (abs_le.mpr ⟨a3, a4⟩) (not_le.mpr hc)
      · exact absurd (abs_le.mpr ⟨a5, a6⟩) (not_le.mpr hc)
    · push_neg at hcond
      obtain ⟨h1, h2, h3⟩ := hcond
      exact iff_of_true rfl
        ⟨(abs_le.mp h1).1, (abs_le.mp h1).2, (abs_le.mp h2).1, (abs_le.mp h2).2,
         (abs_le.mp h3).1, (abs_le.mp h3).2⟩

/-- C7: pause toggling is edge-triggered and exact — after any event
sequence the paused flag is the initial flag xor the parity of the number
of pressed events; released and held events leave it unchanged, one press
flips it, and two presses restore it. -/
theorem pause_toggle_parity :
    (∀ (init : Bool) (evs : List JoyAction),
      processEvents init evs = (init ^^ decide (countPressed evs % 2 = 1))) ∧
    (∀ p : Bool, on_middle_pressed p .released = p) ∧
    (∀ p : Bool, on_middle_pressed p .held = p) ∧
    (∀ p : Bool, on_middle_pressed p .pressed = !p) ∧
    (∀ p : Bool, on_middle_pressed (on_middle_pressed p .pressed) .pressed = p) := by
  refine ⟨?_, fun p => rfl, fun p => rfl, fun p => rfl, fun p => by cases p <;> rfl⟩
  intro init evs
  induction evs generalizing init with
  | nil => simp [processEvents, countPressed]
  | cons a t ih =>
    cases a with
    | pressed =>
      rw [show processEvents init (.pressed :: t) = processEvents (!init) t from rfl, ih]
      rcases Nat.mod_two_eq_zero_or_one (countPressed t) with h | h <;>
        cases init <;> simp [countPressed, Nat.add_mod, h]
    | released =>
      rw [show processEvents init (.released :: t) = processEvents init t from rfl, ih,
        show countPressed (.released :: t) = countPressed t from rfl]
    | held =>
      rw [show processEvents init (.held :: t) = processEvents init t from rfl, ih,
        show countPressed (.held :: t) = countPressed t from rfl]

/-- C8: the display loop's inter-tick sleep equals
`max(0.2, rotate_seconds * 0.2)` and is never below the 0.2 second
floor, whatever the configured value. -/
theorem display_sleep_floor (rotate_seconds : ℤ) :
    display_sleep rotate_seconds = max (0.2 : ℚ) ((rotate_seconds : ℚ) * 0.2) ∧
    (0.2 : ℚ) ≤ display_sleep rotate_seconds :=
  ⟨rfl, le_max_left _ _⟩

/-- C10: for every value and every valid threshold pair, the three scalar
classifiers of the non-threaded variant return the same label as the
threaded variant's `_bucket`. -/
theorem legacy_classifiers_match_bucket (lo hi v : ℚ) (h : lo < hi) :
    classify_temperature lo hi v = bucket v lo hi ∧
    classify_humidity lo hi v = bucket v lo hi ∧
    classify_pressure lo hi v = bucket v lo hi := by
  refine ⟨?_, ?_, ?_⟩ <;>
  · simp only [classify_temperature, classify_humidity, classify_pressure, bucket]
    split_ifs with h1 h2 h3 h4 <;>
      first
        | rfl
        | exact absurd h3 (not_lt.mpr h2.2)
        | exact h2 ⟨not_lt.mp h1, not_lt.mp h4⟩

/-- C10 witness: the three classifiers agree with `_bucket` at
`v = 20`, `lo = 18`, `hi = 26`. -/
theorem legacy_classifiers_match_bucket_witness :
    classify_temperature 18 26 20 = bucket 20 18 26 ∧
    classify_humidity 18 26 20 = bucket 20 18 26 ∧
    classify_pressure 18 26 20 = bucket 20 18 26 :=
  legacy_classifiers_match_bucket 18 26 20 (by norm_num)

/-- C3 counterexample: `_load_and_validate_config` accepts a
configuration whose pitch bounds are the non-numeric strings "a" and "b"
(Python evaluates `"a" >= "b"` to `False`, and no numeric-type check is
applied to orientation bounds), so a non-numeric orientation bound does
not raise `ConfigError` as the claim requires. -/
theorem nonnumeric_orientation_bounds_accepted :
    validate cfg_pitch_str = .ok () ∧
    (pyGet cfg_pitch_str "orientation").bind
        (fun o => (pyGet o "pitch").bind (fun ax => pyGet ax "min")) =
      Except.ok (Json.str "a") :=
  ⟨rfl, rfl⟩

/-- C3 amended: validation succeeds exactly when all sections are
present and every range passes its checks, where the environmental
ranges (temperature, humidity, pressure) require present numeric bounds
with `min < max` but the orientation axes only require present bounds
with `min >= max` false under Python comparison — non-numeric
orientation bounds are accepted when they compare `min < max`, and
incomparable ones raise `TypeError`, not `ConfigError`. The listed
defects in sections and environmental ranges, and inverted orientation
ranges, are still rejected with `ConfigError`. -/
theorem validate_characterization :
    (∀ cfg : Json, validate cfg = .ok () ↔ validOk cfg) ∧
    validate cfg_good = .ok () ∧
    (∃ m, validate (Json.obj []) = .error (.configError m)) ∧
    (∃ m, validate cfg_hum_missing_max = .error (.configError m)) ∧
    (∃ m, validate cfg_temp_nonnum = .error (.configError m)) ∧
    (∃ m, validate cfg_pressure_inverted = .error (.configError m)) ∧
    (∃ m, validate cfg_pitch_inverted = .error (.configError m)) ∧
    validate cfg_roll_mixed = .error .typeError :=
  ⟨validate_ok_iff, rfl, ⟨_, rfl⟩, ⟨_, rfl⟩, ⟨_, rfl⟩, ⟨_, rfl⟩, ⟨_, rfl⟩, rfl⟩

/-- C4: on a non-paused tick the published sample is the classified
`_read_sensors` result, whose stored temperature is the raw temperature
plus the calibration offset, rounded to one decimal; concretely, with
thresholds `temperature: 18..26`, raw temperature `27.3` and offset
`-1.5`, the stored temperature is `25.8` and classifies `Comfortable`. -/
theorem calibration_offset_before_rounding (t : TickIn) (cfg : Cfg) (off : ℚ)
    (rest : List TickIn) (h : t.paused = false) :
    (runLoop cfg off (t :: rest)).published.head? =
      some (read_sensors t.raw off, classify cfg (read_sensors t.raw off)) ∧
    (read_sensors t.raw off).temperature = pyRound1 (t.raw.temperature + off) ∧
    (read_sensors raw_scenario (-1.5 : ℚ)).temperature = 25.8 ∧
    (classify cfg_scenario (read_sensors raw_scenario (-1.5 : ℚ))).temperature = .Comfortable := by
  refine ⟨?_, rfl, by norm_num [read_sensors, pyRound1, roundHalfEven, raw_scenario], ?_⟩
  · cases hp : t.persistOk <;> simp [runLoop, h, hp]
  · norm_num [classify, bucket, cfg_scenario, read_sensors, pyRound1, roundHalfEven, raw_scenario]

/-- C4 witness: the theorem at the spec scenario tick. -/
theorem calibration_offset_before_rounding_witness :
    (runLoop cfg_scenario (-1.5 : ℚ) [⟨false, raw_scenario, true⟩]).published.head? =
      some (read_sensors raw_scenario (-1.5 : ℚ),
        classify cfg_scenario (read_sensors raw_scenario (-1.5 : ℚ))) ∧
    (read_sensors raw_scenario (-1.5 : ℚ)).temperature =
      pyRound1 (raw_scenario.temperature + (-1.5 : ℚ)) ∧
    (read_sensors raw_scenario (-1.5 : ℚ)).temperature = 25.8 ∧
    (classify cfg_scenario (read_sensors raw_scenario (-1.5 : ℚ))).temperature = .Comfortable :=
  calibration_offset_before_rounding ⟨false, raw_scenario, true⟩ cfg_scenario (-1.5) [] rfl

/-- C5 counterexample: two non-paused ticks, the first with a failing
append — only one sample is ever published and none persisted (the loop
crashed), so the next tick's sample is neither published nor attempted
for persistence, contrary to the claim. -/
theorem persist_failure_kills_next_tick :
    (runLoop cfg_scenario (-1.5 : ℚ)
        [⟨false, raw_scenario, false⟩, ⟨false, raw_scenario, true⟩]).published.length = 1 ∧
    (runLoop cfg_scenario (-1.5 : ℚ)
        [⟨false, raw_scenario, false⟩, ⟨false, raw_scenario, true⟩]).persisted = [] ∧
    (runLoop cfg_scenario (-1.5 : ℚ)
        [⟨false, raw_scenario, false⟩, ⟨false, raw_scenario, true⟩]).crashed = true :=
  ⟨rfl, rfl, rfl⟩

/-- C5 amended: `run` has no handler around `self._log(r, c)`, so the
first failing append ends the loop: the failing tick's sample is still
published (the shared pair is updated before `_log`) but not persisted,
and no later tick is processed at all. -/
theorem persist_failure_stops_loop (cfg : Cfg) (off : ℚ) (pre : List TickIn) (t : TickIn)
    (rest : List TickIn) (hpre : ∀ x ∈ pre, x.paused = true ∨ x.persistOk = true)
    (hp : t.paused = false) (hf : t.persistOk = false) :
    runLoop cfg off (pre ++ t :: rest) =
      { published := (runLoop cfg off pre).published ++
          [(read_sensors t.raw off, classify cfg (read_sensors t.raw off))]
        persisted := (runLoop cfg off pre).persisted
        crashed := true } := by
  induction pre with
  | nil => simp [runLoop, hp, hf]
  | cons x pre ih =>
    have hpre' : ∀ y ∈ pre, y.paused = true ∨ y.persistOk = true :=
      fun y hy => hpre y (List.mem_cons_of_mem x hy)
    have hx := hpre x (List.mem_cons_self x pre)
    cases hxp : x.paused with
    | true => simp [List.cons_append, runLoop, hxp, ih hpre']
    | false =>
      have hxo : x.persistOk = true := by
        rcases hx with h1 | h1
        · rw [hxp] at h1; cases h1
        · exact h1
      simp [List.cons_append, runLoop, hxp, hxo, ih hpre']

/-- C5 witness: the amended statement at a concrete two-tick schedule. -/
theorem persist_failure_stops_loop_witness :
    runLoop cfg_scenario (-1.5 : ℚ)
        ([] ++ (⟨false, raw_scenario, false⟩ : TickIn) :: [⟨false, raw_scenario, true⟩]) =
      { published := (runLoop cfg_scenario (-1.5 : ℚ) []).published ++
          [(read_sensors raw_scenario (-1.5 : ℚ),
            classify cfg_scenario (read_sensors raw_scenario (-1.5 : ℚ)))]
        persisted := (runLoop cfg_scenario (-1.5 : ℚ) []).persisted
        crashed := true } :=
  persist_failure_stops_loop cfg_scenario (-1.5) [] ⟨false, raw_scenario, false⟩
    [⟨false, raw_scenario, true⟩] (fun x hx => absurd hx (List.not_mem_nil x)) rfl rfl

/-- C6: on a configuration error, `main` prints the `[CONFIG ERROR]`
tagged message but the process exits with code 1, not 2: `sys` is never
imported, so `sys.exit(2)` raises an uncaught `NameError` and the
interpreter exits with code 1. Other startup errors exit 1 and a
`KeyboardInterrupt` exits 0, as claimed. -/
theorem config_error_exit_code_is_one :
    sys_imported = false ∧
    (∃ m, validate (Json.obj []) = .error (.configError m)) ∧
    (main_result (Json.obj []) false).2 = 1 ∧
    (main_result (Json.obj []) false).1 =
      ["[CONFIG ERROR] Missing temperature section in config."] ∧
    (main_result cfg_roll_mixed false).2 = 1 ∧
    (main_result cfg_roll_mixed false).1 = ["[STARTUP ERROR]"] ∧
    (main_result cfg_good true).2 = 0 :=
  ⟨rfl, ⟨_, rfl⟩, rfl, rfl, rfl, rfl, rfl⟩

/-- C9 counterexample: under the schedule that lets the display thread
load `_latest_classes` after the first publish and `_latest` after the
second publish's first store, the snapshot pairs the reading of publish 2
with the classification of publish 1 — two different publish calls. -/
theorem snapshot_mixes_publishes :
    (runSched mixSched (initState [(1, 1), (2, 2)])).readLatest = some 2 ∧
    (runSched mixSched (initState [(1, 1), (2, 2)])).readClasses = some 1 :=
  ⟨rfl, rfl⟩

/-- C9 amended: the pair is written as two separate attribute stores and
read as two separate loads with no synchronization, so for every pair of
publishes there is an interleaving under which the snapshot combines the
second publish's reading with the first publish's classification. -/
theorem snapshot_mixing_schedule (r1 c1 r2 c2 : ℕ) :
    (runSched mixSched (initState [(r1, c1), (r2, c2)])).readLatest = some r2 ∧
    (runSched mixSched (initState [(r1, c1), (r2, c2)])).readClasses = some c1 :=
  ⟨rfl, rfl⟩

end IoTSensor
